import Mathlib

/-!
Verification of the `uranus` query-parsing core (Rust, built on the nom
combinator library): a shallow embedding of `src/query_parser` in Lean 4,
followed by theorems checking the specification's claims.

Modelling conventions:
* input is `List Char`; a nom *complete* parser becomes
  `Input → Option (Input × α)`, where `none` models `Err::Error`
  (no combinator used by this code produces `Err::Failure` or
  `Incomplete`);
* Rust `i64` is `Int` with explicit bounds checks where the source
  checks them (nom's `character::complete::i64` errors on overflow);
* Rust `f64` is modelled by `F64` below: the exact decimal value
  (mantissa over a power of ten) for the finite literals this parser
  constructs, plus a `nan` point so the IEEE equality of
  `impl PartialEq for Value` can be stated; binary64 rounding is not
  modelled;
* Rust `panic!`/`expect`/`todo!` outcomes are modelled by the
  `RustOutcome.panic` constructor, so that "never aborts" is a statable
  property.
-/

namespace Uranus

/-- Parser input: the remaining characters of the statement. -/
abbrev Input := List Char

/-- A nom complete parser over `&str`: `some (rest, a)` models
`Ok((rest, a))`, `none` models `Err::Error`. -/
def Parser (α : Type) : Type := Input → Option (Input × α)

/-- Outcome of a Rust computation that may abort: `panic msg` models a
`panic!`/`expect`/`todo!` abort carrying its message. -/
inductive RustOutcome (α : Type) where
  | value (a : α)
  | panic (msg : String)
deriving DecidableEq

namespace Nom

/-- ASCII lower-casing; the keywords compared by `tag_no_case` here are
all ASCII, for which Rust's case-insensitive comparison coincides with
ASCII lowering. -/
def lowerAscii (c : Char) : Char :=
  if c.toNat ≥ 65 ∧ c.toNat ≤ 90 then Char.ofNat (c.toNat + 32) else c

/-- nom `bytes::complete::tag`: match the literal prefix `s`. -/
def tag (s : List Char) : Parser (List Char) := fun i =>
  if s.isPrefixOf i then some (i.drop s.length, s) else none

/-- nom `bytes::complete::tag_no_case`: match `s` case-insensitively. -/
def tag_no_case (s : List Char) : Parser (List Char) := fun i =>
  if (i.take s.length).map lowerAscii = s.map lowerAscii then
    some (i.drop s.length, i.take s.length)
  else none

/-- The characters accepted by nom `multispace0`: space, tab, carriage
return, line feed. -/
def isMultispace (c : Char) : Bool :=
  c == ' ' || c == '\t' || c == '\r' || c == '\n'

/-- nom `character::complete::multispace0`. -/
def multispace0 : Parser (List Char) := fun i =>
  some (i.dropWhile isMultispace, i.takeWhile isMultispace)

/-- nom `bytes::complete::take_while1`. -/
def take_while1 (p : Char → Bool) : Parser (List Char) := fun i =>
  match i.takeWhile p with
  | [] => none
  | pre => some (i.dropWhile p, pre)

/-- nom `character::complete::digit1`. -/
def digit1 : Parser (List Char) := take_while1 Char.isDigit

/-- nom `combinator::map`. -/
def map (p : Parser α) (f : α → β) : Parser β := fun i =>
  match p i with
  | none => none
  | some (r, a) => some (r, f a)

/-- nom `combinator::map_res`. -/
def map_res (p : Parser α) (f : α → Option β) : Parser β := fun i =>
  match p i with
  | none => none
  | some (r, a) =>
    match f a with
    | none => none
    | some b => some (r, b)

/-- nom `combinator::opt`. -/
def opt (p : Parser α) : Parser (Option α) := fun i =>
  match p i with
  | some (r, a) => some (r, some a)
  | none => some (i, none)

/-- nom `branch::alt`: ordered choice, first alternative that succeeds. -/
def alt : List (Parser α) → Parser α
  | [] => fun _ => none
  | p :: ps => fun i =>
    match p i with
    | some ra => some ra
    | none => alt ps i

/-- nom `sequence::preceded`. -/
def preceded (p : Parser α) (q : Parser β) : Parser β := fun i =>
  match p i with
  | none => none
  | some (r, _) => q r

/-- nom `sequence::terminated`. -/
def terminated (p : Parser α) (q : Parser β) : Parser α := fun i =>
  match p i with
  | none => none
  | some (r, a) =>
    match q r with
    | none => none
    | some (r2, _) => some (r2, a)

/-- nom `sequence::delimited`. -/
def delimited (p : Parser α) (q : Parser β) (r : Parser γ) : Parser β :=
  preceded p (terminated q r)

/-- nom `combinator::recognize`: run `p`, return the consumed slice. -/
def recognize (p : Parser α) : Parser (List Char) := fun i =>
  match p i with
  | none => none
  | some (r, _) => some (r, i.take (i.length - r.length))

/-- The element/separator loop shared by nom `multi::separated_list0/1`,
entered after the first element has been parsed.  `fuel` makes the
recursion structural; at every call site it is `input length + 1`, which
the separators used in this code (all of which consume at least one
character) never exhaust.  Mirroring nom, the loop errors if the
separator succeeds without consuming, and otherwise backtracks and
returns the list collected so far. -/
def sepAux (sep : Parser σ) (p : Parser α) :
    Nat → Input → List α → Option (Input × List α)
  | 0, _, _ => none
  | fuel + 1, i, acc =>
    match sep i with
    | none => some (i, acc.reverse)
    | some (i1, _) =>
      if i1.length = i.length then none
      else
        match p i1 with
        | none => some (i, acc.reverse)
        | some (i2, a) => sepAux sep p fuel i2 (a :: acc)

/-- nom `multi::separated_list0`. -/
def separated_list0 (sep : Parser σ) (p : Parser α) : Parser (List α) := fun i =>
  match p i with
  | none => some (i, [])
  | some (i1, a) => sepAux sep p (i1.length + 1) i1 [a]

/-- nom `multi::separated_list1`. -/
def separated_list1 (sep : Parser σ) (p : Parser α) : Parser (List α) := fun i =>
  match p i with
  | none => none
  | some (i1, a) => sepAux sep p (i1.length + 1) i1 [a]

/-- Checked decimal accumulation of nom `character::complete::i64`:
`pos` is the sign (`true` = non-negative); each step mirrors
`checked_mul`/`checked_add`(`checked_sub`), erroring once the `i64`
range is left. -/
def i64Fold (pos : Bool) : List Char → Int → Option Int
  | [], v => some v
  | d :: ds, v =>
    let v' : Int :=
      if pos then v * 10 + (d.toNat - 48 : Nat) else v * 10 - (d.toNat - 48 : Nat)
    if pos then
      if v' ≤ 2 ^ 63 - 1 then i64Fold pos ds v' else none
    else
      if -(2 ^ 63) ≤ v' then i64Fold pos ds v' else none

/-- Digit-run stage of nom `i64`: one-or-more digits up to the first
non-digit, value accumulated with overflow checking. -/
def i64Digits (i1 : Input) (pos : Bool) : Option (Input × Int) :=
  match i1.takeWhile Char.isDigit with
  | [] => none
  | ds =>
    match i64Fold pos ds 0 with
    | none => none
    | some v => some (i1.dropWhile Char.isDigit, v)

/-- nom `character::complete::i64`: optional sign, one-or-more digits up
to the first non-digit, value accumulated with overflow checking. -/
def parse_i64 : Parser Int := fun i =>
  match i with
  | c :: rest =>
    if c == '+' then i64Digits rest true
    else if c == '-' then i64Digits rest false
    else i64Digits i true
  | [] => i64Digits i true

end Nom

/-- Powers of ten (kept structural so the kernel can evaluate them). -/
def pow10 : Nat → Nat
  | 0 => 1
  | n + 1 => 10 * pow10 n

/-- Model of Rust `f64` as this crate uses it: `decimal m e` is the
exact finite value `m / 10 ^ e` read from a decimal literal; `nan`
models IEEE NaN payloads (needed to state `impl PartialEq for Value`).
Binary64 rounding is not modelled. -/
inductive F64 where
  | decimal (m : Int) (e : Nat)
  | nan
deriving DecidableEq

/-- IEEE-754 equality `f64::eq`: NaN is unequal to everything, itself
included; finite values compare numerically (cross-multiplied exact
comparison). -/
def F64.ieeeEq : F64 → F64 → Bool
  | .decimal m1 e1, .decimal m2 e2 =>
    m1 * (pow10 e2 : Int) == m2 * (pow10 e1 : Int)
  | _, _ => false

/-- Numeric value of a run of decimal digit characters. -/
def natOfDigits (ds : List Char) : Nat :=
  ds.foldl (fun n d => n * 10 + (d.toNat - 48)) 0

/-- Rust `str::parse::<f64>` restricted to the shapes recognized by
`parse_float` (optional minus, digits, a dot, digits); on those shapes
it always succeeds, modelled as the exact decimal rational. -/
def f64DecimalDigits (neg : Bool) (s1 : List Char) : Option F64 :=
  match s1.dropWhile Char.isDigit with
  | '.' :: fp =>
    if s1.takeWhile Char.isDigit = [] ∨ fp = [] ∨ ¬ (fp.all Char.isDigit) then none
    else
      some (.decimal
        ((if neg then -1 else 1) *
          ((natOfDigits (s1.takeWhile Char.isDigit) * pow10 fp.length
            + natOfDigits fp : Nat) : Int))
        fp.length)
  | _ => none

/-- See `f64DecimalDigits`: sign stage of the decimal interpretation. -/
def f64FromDecimal (s : List Char) : Option F64 :=
  match s with
  | '-' :: rest => f64DecimalDigits true rest
  | _ => f64DecimalDigits false s

/-- Modelled from the spec: the keyword constants of
`src/query_parser/keyword.rs`, a module referenced by every parser file
but absent from `src/`.  Values follow the spec's literal keywords
(§4, §6) and the identical keyword table embedded in
`src/query_processor/dml_parser.rs`. -/
def SELECT : String := "SELECT"

/-- Modelled from the spec: see `SELECT`. -/
def INSERT_INTO : String := "INSERT INTO"

/-- Modelled from the spec: see `SELECT`. -/
def UPDATE : String := "UPDATE"

/-- Modelled from the spec: see `SELECT`. -/
def DELETE : String := "DELETE"

/-- Modelled from the spec: see `SELECT`. -/
def CREATE_TABLE : String := "CREATE TABLE"

/-- Modelled from the spec: see `SELECT`. -/
def ALTER_TABLE : String := "ALTER TABLE"

/-- Modelled from the spec: see `SELECT`. -/
def DROP_TABLE : String := "DROP TABLE"

/-- Modelled from the spec: see `SELECT`. -/
def PRIMARY_KEY : String := "PRIMARY KEY"

/-- Modelled from the spec: see `SELECT`. -/
def ADD : String := "ADD"

/-- Modelled from the spec: see `SELECT`. -/
def DROP : String := "DROP"

/-- Modelled from the spec: see `SELECT`. -/
def FROM : String := "FROM"

/-- Modelled from the spec: see `SELECT`. -/
def WHERE : String := "WHERE"

/-- Modelled from the spec: see `SELECT`. -/
def AND : String := "AND"

/-- Modelled from the spec: see `SELECT`. -/
def VALUES : String := "VALUES"

/-- Modelled from the spec: see `SELECT`. -/
def SET : String := "SET"

/-- Modelled from the spec: see `SELECT`. -/
def TRUE : String := "TRUE"

/-- Modelled from the spec: see `SELECT`. -/
def FALSE : String := "FALSE"

/-- Modelled from the spec: see `SELECT`. -/
def UUID : String := "UUID"

/-- Modelled from the spec: see `SELECT`. -/
def INT : String := "INT"

/-- Modelled from the spec: see `SELECT`. -/
def LONG : String := "LONG"

/-- Modelled from the spec: see `SELECT`. -/
def FLOAT : String := "FLOAT"

/-- Modelled from the spec: see `SELECT`. -/
def DOUBLE : String := "DOUBLE"

/-- Modelled from the spec: see `SELECT`. -/
def TIMESTAMP : String := "TIMESTAMP"

/-- Modelled from the spec: see `SELECT`. -/
def TEXT : String := "TEXT"

/-- Modelled from the spec: see `SELECT`. -/
def BOOL : String := "BOOL"

/-! The AST data model of `src/query_parser/query.rs`. -/

/-- `enum Operator` in query.rs. -/
inductive Operator where
  | Equals
  | NotEquals
  | Greater
  | GreaterOrEquals
  | Less
  | LessOrEquals
deriving DecidableEq

/-- `enum QueryType` in query.rs. -/
inductive QueryType where
  | Select
  | Insert
  | Update
  | Delete
  | CreateTable
  | AlterTable
  | DropTable
deriving DecidableEq

/-- Rust `String` (the aliases keep `Value`'s constructor names from
shadowing the payload types inside the declaration). -/
abbrev RustString := String

/-- Rust `bool`. -/
abbrev RustBool := Bool

/-- `enum Value` in query.rs; `Integer` holds a Rust `i64`, `Float` a
Rust `f64` (see `F64`). -/
inductive Value where
  | Integer (n : Int)
  | Float (f : F64)
  | String (s : RustString)
  | Bool (b : RustBool)
deriving DecidableEq

/-- `impl PartialEq for Value` in query.rs (lines 186-196): componentwise
within a variant, `false` across variants, IEEE equality on floats. -/
def Value.rustEq : Value → Value → RustBool
  | .Integer x, .Integer y => x == y
  | .Float x, .Float y => F64.ieeeEq x y
  | .String x, .String y => x == y
  | .Bool x, .Bool y => x == y
  | _, _ => false

/-- Variant discriminant of `Value`, used to state that `rustEq` is
`false` across different variants. -/
def Value.discriminant : Value → Nat
  | .Integer _ => 0
  | .Float _ => 1
  | .String _ => 2
  | .Bool _ => 3

/-- `enum ColumnType` in query.rs. -/
inductive ColumnType where
  | Uuid
  | Int
  | Long
  | Float
  | Double
  | Timestamp
  | Text
  | Bool
deriving DecidableEq

/-- `struct Condition` in query.rs. -/
structure Condition where
  column : String
  operator : Operator
  value : Value
deriving DecidableEq

/-- `struct Column` in query.rs. -/
structure Column where
  name : String
  column_type : ColumnType
deriving DecidableEq

/-- `struct PrimaryKey` in query.rs. -/
structure PrimaryKey where
  partition_key : List String
  clustering_key : List String
deriving DecidableEq

/-- `struct SelectQuery` in query.rs. -/
structure SelectQuery where
  columns : List String
  table : String
  conditions : List Condition
deriving DecidableEq

/-- `struct InsertQuery` in query.rs. -/
structure InsertQuery where
  columns : List String
  values : List Value
  table : String
deriving DecidableEq

/-- `struct UpdateQuery` in query.rs. -/
structure UpdateQuery where
  table : String
  values : List (String × Value)
  conditions : List Condition
deriving DecidableEq

/-- `struct DeleteQuery` in query.rs. -/
structure DeleteQuery where
  columns : List String
  table : String
  conditions : List Condition
deriving DecidableEq

/-- `struct CreateTableQuery` in query.rs. -/
structure CreateTableQuery where
  table : String
  primary_key : PrimaryKey
  columns : List Column
deriving DecidableEq

/-- `struct AddColumnCondition` in query.rs. -/
structure AddColumnCondition where
  column_name : String
  column_type : ColumnType
deriving DecidableEq

/-- `struct DropColumnCondition` in query.rs. -/
structure DropColumnCondition where
  column_name : String
deriving DecidableEq

/-- `enum AlterTableCondition` in query.rs. -/
inductive AlterTableCondition where
  | AddColumn (c : AddColumnCondition)
  | DropColumn (c : DropColumnCondition)
deriving DecidableEq

/-- `struct AlterTableQuery` in query.rs. -/
structure AlterTableQuery where
  table : String
  conditions : List AlterTableCondition
deriving DecidableEq

/-- `struct DropTableQuery` in query.rs. -/
structure DropTableQuery where
  table : String
deriving DecidableEq

/-- `enum DataManipulationQuery` in query.rs. -/
inductive DataManipulationQuery where
  | Select (q : SelectQuery)
  | Insert (q : InsertQuery)
  | Update (q : UpdateQuery)
  | Delete (q : DeleteQuery)
deriving DecidableEq

/-- `enum DataDefinitionQuery` in query.rs. -/
inductive DataDefinitionQuery where
  | CreateTable (q : CreateTableQuery)
  | AlterTable (q : AlterTableQuery)
  | DropTable (q : DropTableQuery)
deriving DecidableEq

/-- `enum Query` in query.rs. -/
inductive Query where
  | DataManipulationQuery (q : DataManipulationQuery)
  | DataDefinitionQuery (q : DataDefinitionQuery)
deriving DecidableEq

/-- `enum QueryParsingError` in query.rs. -/
inductive QueryParsingError where
  | UnsupportedRequest (query : String)
  | QuerySyntaxError (msg : String) (query : String)
deriving DecidableEq

end Uranus

deriving instance DecidableEq for Except

namespace Uranus

/-! `src/query_parser/common_parser.rs`. -/

/-- The single-quote character (the string delimiter). -/
def squote : Char := Char.ofNat 39

/-- `common_parser::ws`: trim whitespace on both sides. -/
def ws (f : Parser α) : Parser α :=
  Nom.delimited Nom.multispace0 f Nom.multispace0

/-- `common_parser::parse_keyword`: a whitespace-trimmed,
case-insensitive keyword match. -/
def parse_keyword (keyword : String) : Parser (List Char) :=
  ws (Nom.tag_no_case keyword.toList)

/-- `common_parser::parse_string`: a non-empty single-quoted string with
no escapes. -/
def parse_string : Parser Value :=
  Nom.map
    (ws (Nom.delimited (Nom.tag [squote])
      (Nom.take_while1 (fun ch => ch != squote)) (Nom.tag [squote])))
    (fun s => Value.String (String.mk s))

/-- `common_parser::parse_float`: recognize `-? digits . digits` and feed
it to `str::parse::<f64>`. -/
def parse_float : Parser Value :=
  ws (Nom.map_res
    (Nom.recognize (fun i =>
      match Nom.opt (Nom.tag ['-']) i with
      | none => none
      | some (i1, _) =>
        match Nom.digit1 i1 with
        | none => none
        | some (i2, _) =>
          match Nom.tag ['.'] i2 with
          | none => none
          | some (i3, _) =>
            match Nom.digit1 i3 with
            | none => none
            | some (i4, _) => some (i4, ())))
    (fun s =>
      match f64FromDecimal s with
      | none => none
      | some f => some (Value.Float f)))

/-- `common_parser::parse_integer`: nom's checked `i64` parser. -/
def parse_integer : Parser Value :=
  ws (Nom.map Nom.parse_i64 Value.Integer)

/-- `common_parser::parse_value`: float, then integer, then the boolean
literals, then string — in the source's order. -/
def parse_value : Parser Value :=
  Nom.alt [
    parse_float,
    parse_integer,
    Nom.map (ws (Nom.tag_no_case FALSE.toList)) (fun _ => Value.Bool false),
    Nom.map (ws (Nom.tag_no_case TRUE.toList)) (fun _ => Value.Bool true),
    parse_string]

/-- `common_parser::parse_identifier`: a run of alphabetic characters or
underscore (Rust's `char::is_alphabetic` restricted to ASCII inputs). -/
def parse_identifier : Parser String :=
  ws (Nom.map (Nom.take_while1 (fun ch => ch.isAlpha || ch == '_')) String.mk)

/-- `common_parser::parse_comma`. -/
def parse_comma : Parser (List Char) :=
  ws (Nom.tag [','])

/-! `src/query_parser/dml_parser.rs`. -/

/-- `dml_parser::parse_condition`: identifier, comparator (two-character
operators first), then a value — with the boolean literals matched by
case-sensitive `tag("false")`/`tag("true")`, unlike `parse_value`. -/
def parse_condition : Parser Condition := fun query =>
  match parse_identifier query with
  | none => none
  | some (query1, column) =>
    match (Nom.alt [
        Nom.map (ws (Nom.tag ">=".toList)) (fun _ => Operator.GreaterOrEquals),
        Nom.map (ws (Nom.tag "<=".toList)) (fun _ => Operator.LessOrEquals),
        Nom.map (ws (Nom.tag ">".toList)) (fun _ => Operator.Greater),
        Nom.map (ws (Nom.tag "<".toList)) (fun _ => Operator.Less),
        Nom.map (ws (Nom.tag "=".toList)) (fun _ => Operator.Equals),
        Nom.map (ws (Nom.tag "!=".toList)) (fun _ => Operator.NotEquals)]
      : Parser Operator) query1 with
    | none => none
    | some (query2, operator) =>
      match (Nom.alt [
          parse_float,
          parse_integer,
          Nom.map (ws (Nom.tag "false".toList)) (fun _ => Value.Bool false),
          Nom.map (ws (Nom.tag "true".toList)) (fun _ => Value.Bool true),
          parse_string]
        : Parser Value) query2 with
      | none => none
      | some (query3, value) =>
        some (query3, { column := column, operator := operator, value := value })

/-- `dml_parser::parse_conditions`: a `WHERE`-introduced `AND`-separated
condition list; a missing `WHERE` yields the empty list. -/
def parse_conditions : Parser (List Condition) := fun query =>
  match parse_keyword WHERE query with
  | some (query1, _) =>
    Nom.separated_list1 (parse_keyword AND) parse_condition query1
  | none => some (query, [])

/-- `dml_parser::parse_select_query`. -/
def parse_select_query (query : Input) : Except QueryParsingError Query :=
  match parse_keyword SELECT query with
  | none =>
    .error (.QuerySyntaxError "expected the select keyword" (String.mk query))
  | some (query1, _) =>
    match (Nom.alt [
        Nom.map (ws (Nom.tag ['*'])) (fun _ => ([] : List String)),
        Nom.separated_list1 (ws (Nom.tag [','])) parse_identifier]
      : Parser (List String)) query1 with
    | none =>
      .error (.QuerySyntaxError "expected the column names or *" (String.mk query1))
    | some (query2, columns) =>
      match parse_keyword FROM query2 with
      | none =>
        .error (.QuerySyntaxError "expected the from keyword" (String.mk query2))
      | some (query3, _) =>
        match parse_identifier query3 with
        | none =>
          .error (.QuerySyntaxError "expected the table name" (String.mk query3))
        | some (query4, table) =>
          match parse_conditions query4 with
          | none =>
            .error (.QuerySyntaxError
              "an error occurred while parsing where condition" (String.mk query4))
          | some (_, conditions) =>
            .ok (.DataManipulationQuery (.Select
              { columns := columns, table := table, conditions := conditions }))

/-- `dml_parser::parse_insert`. -/
def parse_insert (query : Input) : Except QueryParsingError Query :=
  match parse_keyword INSERT_INTO query with
  | none =>
    .error (.QuerySyntaxError "expected the insert into keyword" (String.mk query))
  | some (query1, _) =>
    match parse_identifier query1 with
    | none =>
      .error (.QuerySyntaxError "expected the table name" (String.mk query1))
    | some (query2, table) =>
      match ws (Nom.delimited (Nom.tag ['('])
          (Nom.separated_list1 (ws (Nom.tag [','])) parse_identifier)
          (Nom.tag [')'])) query2 with
      | none =>
        .error (.QuerySyntaxError
          "an error occurred while parsing column names" (String.mk query2))
      | some (query3, columns) =>
        match parse_keyword VALUES query3 with
        | none =>
          .error (.QuerySyntaxError "expected the values keyword" (String.mk query3))
        | some (query4, _) =>
          match ws (Nom.delimited (Nom.tag ['('])
              (Nom.separated_list1 (ws (Nom.tag [','])) parse_value)
              (Nom.tag [')'])) query4 with
          | none =>
            .error (.QuerySyntaxError
              "an error occurred while parsing values" (String.mk query4))
          | some (_, values) =>
            .ok (.DataManipulationQuery (.Insert
              { columns := columns, table := table, values := values }))

/-- `dml_parser::parse_update`. -/
def parse_update (query : Input) : Except QueryParsingError Query :=
  match parse_keyword UPDATE query with
  | none =>
    .error (.QuerySyntaxError
      "an error occurred while parsing update keyword" (String.mk query))
  | some (query1, _) =>
    match parse_identifier query1 with
    | none =>
      .error (.QuerySyntaxError
        "an error occurred while parsing the table name" (String.mk query1))
    | some (query2, table) =>
      match parse_keyword SET query2 with
      | none =>
        .error (.QuerySyntaxError "expected set keyword" (String.mk query2))
      | some (query3, _) =>
        match Nom.separated_list1 (ws (Nom.tag [',']))
            (fun i =>
              match parse_identifier i with
              | none => none
              | some (i1, column) =>
                match ws (Nom.tag ['=']) i1 with
                | none => none
                | some (i2, _) =>
                  match parse_value i2 with
                  | none => none
                  | some (i3, v) => some (i3, (column, v))) query3 with
        | none =>
          .error (.QuerySyntaxError
            "an error occurred while parsing values" (String.mk query3))
        | some (query4, values) =>
          match parse_conditions query4 with
          | none =>
            .error (.QuerySyntaxError
              "an error occurred while parsing where condition" (String.mk query4))
          | some (_, conditions) =>
            .ok (.DataManipulationQuery (.Update
              { table := table, values := values, conditions := conditions }))

/-- `dml_parser::parse_delete`: try a bare `FROM` first (row delete),
otherwise parse a column list and then require `FROM`. -/
def parse_delete (query : Input) : Except QueryParsingError Query :=
  match parse_keyword DELETE query with
  | none =>
    .error (.QuerySyntaxError
      "an error occurred while parsing delete keyword" (String.mk query))
  | some (query1, _) =>
    match
      (match parse_keyword FROM query1 with
       | some (query2, _) => .ok (query2, ([] : List String))
       | none =>
         match Nom.separated_list1 (ws (Nom.tag [','])) parse_identifier query1 with
         | some (query2, columns) =>
           (match parse_keyword FROM query2 with
            | some (query3, _) => .ok (query3, columns)
            | none => .error (.QuerySyntaxError
                "an error occurred while parsing from keyword" (String.mk query2)))
         | none => .error (.QuerySyntaxError
             "an error occurred while parsing the columns" (String.mk query1))
       : Except QueryParsingError (Input × List String)) with
    | .error e => .error e
    | .ok (query2, columns) =>
      match parse_identifier query2 with
      | none =>
        .error (.QuerySyntaxError
          "an error occurred while parsing the table name" (String.mk query2))
      | some (query3, table) =>
        match parse_conditions query3 with
        | none =>
          .error (.QuerySyntaxError
            "an error occurred while parsing where condition" (String.mk query3))
        | some (_, conditions) =>
          .ok (.DataManipulationQuery (.Delete
            { columns := columns, table := table, conditions := conditions }))

/-! `src/query_parser/ddl_parser.rs`. -/

/-- `ddl_parser::parse_column_type`: the type keywords, in source order. -/
def parse_column_type : Parser ColumnType :=
  Nom.alt [
    Nom.map (parse_keyword UUID) (fun _ => ColumnType.Uuid),
    Nom.map (parse_keyword INT) (fun _ => ColumnType.Int),
    Nom.map (parse_keyword LONG) (fun _ => ColumnType.Long),
    Nom.map (parse_keyword FLOAT) (fun _ => ColumnType.Float),
    Nom.map (parse_keyword DOUBLE) (fun _ => ColumnType.Double),
    Nom.map (parse_keyword TIMESTAMP) (fun _ => ColumnType.Timestamp),
    Nom.map (parse_keyword TEXT) (fun _ => ColumnType.Text),
    Nom.map (parse_keyword BOOL) (fun _ => ColumnType.Bool)]

/-- `ddl_parser::is_single_pk`: the lookahead deciding between the two
CREATE TABLE sub-grammars.  Note the case-sensitive `tag(PRIMARY_KEY)`,
unlike `parse_keyword` everywhere else. -/
def is_single_pk (query : Input) : Bool :=
  match Nom.tag ['('] query with
  | none => false
  | some (q1, _) =>
    match parse_identifier q1 with
    | none => false
    | some (q2, _) =>
      match parse_column_type q2 with
      | none => false
      | some (q3, _) => (ws (Nom.tag PRIMARY_KEY.toList) q3).isSome

/-- `ddl_parser::parse_create_table_with_single_pk`. -/
def parse_create_table_with_single_pk :
    Parser (List Column × PrimaryKey) := fun query =>
  match parse_identifier query with
  | none => none
  | some (q1, column_name) =>
    match parse_column_type q1 with
    | none => none
    | some (q2, column_type) =>
      match parse_keyword PRIMARY_KEY q2 with
      | none => none
      | some (q3, _) =>
        match Nom.opt parse_comma q3 with
        | none => none
        | some (q4, _) =>
          match Nom.separated_list0 parse_comma
              (fun i =>
                match parse_identifier i with
                | none => none
                | some (i1, n) =>
                  match parse_column_type i1 with
                  | none => none
                  | some (i2, t) =>
                    some (i2, ({ name := n, column_type := t } : Column))) q4 with
          | none => none
          | some (q5, other_columns) =>
            some (q5,
              (({ name := column_name, column_type := column_type } : Column)
                  :: other_columns,
               ({ partition_key := [column_name], clustering_key := [] }
                  : PrimaryKey)))

/-- `ddl_parser::parse_composite_pk`: inside parentheses, either an
explicit parenthesised partition key followed by clustering columns, or
a bare name list whose first name is the partition key. -/
def parse_composite_pk : Parser PrimaryKey :=
  Nom.delimited (ws (Nom.tag ['(']))
    (Nom.alt [
      (fun i =>
        match Nom.delimited (ws (Nom.tag ['(']))
            (Nom.separated_list1 parse_comma parse_identifier)
            (ws (Nom.tag [')'])) i with
        | none => none
        | some (i1, partition_key) =>
          match Nom.preceded (ws (Nom.tag [',']))
              (Nom.separated_list0 parse_comma parse_identifier) i1 with
          | none => none
          | some (i2, clustering_key) =>
            some (i2,
              ({ partition_key := partition_key, clustering_key := clustering_key }
                : PrimaryKey))),
      Nom.map (Nom.separated_list1 parse_comma parse_identifier)
        (fun column_names =>
          { partition_key := column_names.take 1,
            clustering_key := column_names.drop 1 })])
    (ws (Nom.tag [')']))

/-- `ddl_parser::parse_create_table_with_composite_pk`. -/
def parse_create_table_with_composite_pk :
    Parser (List Column × PrimaryKey) := fun query =>
  match Nom.terminated
      (Nom.separated_list1 parse_comma
        (fun i =>
          match parse_identifier i with
          | none => none
          | some (i1, n) =>
            match parse_column_type i1 with
            | none => none
            | some (i2, t) =>
              some (i2, ({ name := n, column_type := t } : Column))))
      (ws (Nom.tag [','])) query with
  | none => none
  | some (q1, columns) =>
    match parse_keyword PRIMARY_KEY q1 with
    | none => none
    | some (q2, _) =>
      match parse_composite_pk q2 with
      | none => none
      | some (q3, primary_key) => some (q3, (columns, primary_key))

/-- `ddl_parser::parse_create_table_query`. -/
def parse_create_table_query (query : Input) : Except QueryParsingError Query :=
  match ws (parse_keyword CREATE_TABLE) query with
  | none =>
    .error (.QuerySyntaxError
      "cannot parse statement 'CREATE TABLE'" (String.mk query))
  | some (query1, _) =>
    match parse_identifier query1 with
    | none =>
      .error (.QuerySyntaxError "cannot parse table name" (String.mk query1))
    | some (query2, table) =>
      if is_single_pk query2 then
        match Nom.delimited (ws (Nom.tag ['(']))
            parse_create_table_with_single_pk (ws (Nom.tag [')'])) query2 with
        | none =>
          .error (.QuerySyntaxError
            "cannot parse the column definition with a simple primary key"
            (String.mk query2))
        | some (_, (columns, primary_key)) =>
          .ok (.DataDefinitionQuery (.CreateTable
            { table := table, primary_key := primary_key, columns := columns }))
      else
        match Nom.delimited (ws (Nom.tag ['(']))
            parse_create_table_with_composite_pk (ws (Nom.tag [')'])) query2 with
        | none =>
          .error (.QuerySyntaxError
            "cannot parse the column definition with a composite primary key"
            (String.mk query2))
        | some (_, (columns, primary_key)) =>
          .ok (.DataDefinitionQuery (.CreateTable
            { table := table, primary_key := primary_key, columns := columns }))

/-- `ddl_parser::parse_add_column`: `ADD` followed by either one
`identifier type` pair or a parenthesised list of them. -/
def parse_add_column : Parser (List AlterTableCondition) :=
  Nom.preceded (ws (Nom.tag_no_case ADD.toList))
    (Nom.alt [
      (fun i =>
        match parse_identifier i with
        | none => none
        | some (i1, n) =>
          match parse_column_type i1 with
          | none => none
          | some (i2, t) =>
            some (i2, [AlterTableCondition.AddColumn
              { column_name := n, column_type := t }])),
      Nom.delimited (ws (Nom.tag ['(']))
        (Nom.separated_list1 (ws (Nom.tag [',']))
          (fun i =>
            match parse_identifier i with
            | none => none
            | some (i1, n) =>
              match parse_column_type i1 with
              | none => none
              | some (i2, t) =>
                some (i2, AlterTableCondition.AddColumn
                  { column_name := n, column_type := t })))
        (ws (Nom.tag [')']))])

/-- `ddl_parser::parse_drop_column`: `DROP` followed by one identifier or
a parenthesised list of identifiers. -/
def parse_drop_column : Parser (List AlterTableCondition) :=
  Nom.preceded (ws (Nom.tag_no_case DROP.toList))
    (Nom.alt [
      Nom.map parse_identifier
        (fun column_name =>
          [AlterTableCondition.DropColumn { column_name := column_name }]),
      Nom.delimited (ws (Nom.tag ['(']))
        (Nom.separated_list1 (ws (Nom.tag [',']))
          (Nom.map parse_identifier
            (fun column_name =>
              AlterTableCondition.DropColumn { column_name := column_name })))
        (ws (Nom.tag [')']))])

/-- `ddl_parser::parse_alter_table_condition`: a comma-separated list of
ADD/DROP clauses, each yielding a list of entries, flattened in source
order. -/
def parse_alter_table_condition : Parser (List AlterTableCondition) :=
  Nom.map
    (Nom.separated_list0 (ws (Nom.tag [',']))
      (Nom.alt [parse_add_column, parse_drop_column]))
    (fun conditions => conditions.flatten)

/-- `ddl_parser::parse_alter_table_query`; the source's `todo!()` branch
(taken when the clause-list parse fails) is modelled by
`RustOutcome.panic`. -/
def parse_alter_table_query (query : Input) :
    RustOutcome (Except QueryParsingError Query) :=
  match ws (parse_keyword ALTER_TABLE) query with
  | none =>
    .value (.error (.QuerySyntaxError
      "expected 'DROP TABLE' statement" (String.mk query)))
  | some (query1, _) =>
    match parse_identifier query1 with
    | none =>
      .value (.error (.QuerySyntaxError "cannot parse table name" (String.mk query1)))
    | some (query2, table) =>
      match parse_alter_table_condition query2 with
      | none => .panic "not yet implemented"
      | some (_, conditions) =>
        .value (.ok (.DataDefinitionQuery (.AlterTable
          { table := table, conditions := conditions })))

/-- `ddl_parser::parse_drop_table_query`. -/
def parse_drop_table_query (query : Input) : Except QueryParsingError Query :=
  match ws (parse_keyword DROP_TABLE) query with
  | none =>
    .error (.QuerySyntaxError "expected 'DROP TABLE' statement" (String.mk query))
  | some (query1, _) =>
    match parse_identifier query1 with
    | none =>
      .error (.QuerySyntaxError "cannot parse table name" (String.mk query1))
    | some (_, table) =>
      .ok (.DataDefinitionQuery (.DropTable { table := table }))

/-! `src/query_parser/parser.rs`. -/

/-- `parser::get_query_type` (lines 21-35), exactly as written: the
`CREATE TABLE` and `ALTER TABLE` alternatives are both mapped to
`QueryType::Delete`, and no `DROP TABLE` alternative exists. -/
def get_query_type (query : Input) : Except QueryParsingError QueryType :=
  match (Nom.alt [
      Nom.map (parse_keyword SELECT) (fun _ => QueryType.Select),
      Nom.map (parse_keyword INSERT_INTO) (fun _ => QueryType.Insert),
      Nom.map (parse_keyword UPDATE) (fun _ => QueryType.Update),
      Nom.map (parse_keyword DELETE) (fun _ => QueryType.Delete),
      Nom.map (parse_keyword CREATE_TABLE) (fun _ => QueryType.Delete),
      Nom.map (parse_keyword ALTER_TABLE) (fun _ => QueryType.Delete)]
    : Parser QueryType) query with
  | some (_, query_type) => .ok query_type
  | none => .error (.UnsupportedRequest (String.mk query))

/-- `parser::parse_query` (lines 8-19).  The source's `match` has no arm
for `QueryType::DropTable` (which `get_query_type` never produces,
see `get_query_type_ne_DropTable`); that impossible arm is mapped to
`parse_drop_table_query` here, an unobservable choice. -/
def parse_query (query : Input) : RustOutcome (Except QueryParsingError Query) :=
  match get_query_type query with
  | .error e => .value (.error e)
  | .ok query_type =>
    match query_type with
    | .Select => .value (parse_select_query query)
    | .Insert => .value (parse_insert query)
    | .Update => .value (parse_update query)
    | .Delete => .value (parse_delete query)
    | .CreateTable => .value (parse_create_table_query query)
    | .AlterTable => parse_alter_table_query query
    | .DropTable => .value (parse_drop_table_query query)

/-! `src/query_parser/builder.rs`: the builders named by the claims.
Missing-field aborts (`Option::expect`) are modelled by
`RustOutcome.panic` carrying the source's message. -/

/-- `builder::ColumnBuilder`. -/
structure ColumnBuilder where
  column_name : Option String
  column_type : Option ColumnType
deriving DecidableEq

/-- `ColumnBuilder::new`. -/
def ColumnBuilder.new : ColumnBuilder :=
  { column_name := none, column_type := none }

/-- `ColumnBuilder::name`. -/
def ColumnBuilder.name (b : ColumnBuilder) (name : String) : ColumnBuilder :=
  { b with column_name := some name }

/-- `ColumnBuilder::column_type` (the setter). -/
def ColumnBuilder.setType (b : ColumnBuilder) (t : ColumnType) : ColumnBuilder :=
  { b with column_type := some t }

/-- `ColumnBuilder::build`: `expect`s both fields. -/
def ColumnBuilder.build (b : ColumnBuilder) : RustOutcome Column :=
  match b.column_name with
  | none => .panic "column_name field doesn't set"
  | some name =>
    match b.column_type with
    | none => .panic "column_type field doesn't set"
    | some t => .value { name := name, column_type := t }

/-- `builder::ConditionBuilder`. -/
structure ConditionBuilder where
  column : Option String
  operator : Option Operator
  value : Option Value
deriving DecidableEq

/-- `ConditionBuilder::new`. -/
def ConditionBuilder.new : ConditionBuilder :=
  { column := none, operator := none, value := none }

/-- `ConditionBuilder::column` (the setter). -/
def ConditionBuilder.setColumn (b : ConditionBuilder) (c : String) : ConditionBuilder :=
  { b with column := some c }

/-- `ConditionBuilder::operator` (the setter). -/
def ConditionBuilder.setOperator (b : ConditionBuilder) (o : Operator) : ConditionBuilder :=
  { b with operator := some o }

/-- `ConditionBuilder::value` (the setter). -/
def ConditionBuilder.setValue (b : ConditionBuilder) (v : Value) : ConditionBuilder :=
  { b with value := some v }

/-- `ConditionBuilder::build`: `expect`s all three fields. -/
def ConditionBuilder.build (b : ConditionBuilder) : RustOutcome Condition :=
  match b.column with
  | none => .panic "the column doesn't set"
  | some c =>
    match b.operator with
    | none => .panic "the operator doesn't set"
    | some o =>
      match b.value with
      | none => .panic "the value doesn't set"
      | some v => .value { column := c, operator := o, value := v }

/-! Infrastructure: every parser in this code returns a suffix of its
input (so lists of remaining inputs shrink), and the separators used
with the `separated_list` combinators consume at least one character.
These facts discharge the fuel of `Nom.sepAux` and make the clause-list
parser total. -/

/-- `p` never grows its input: any successful parse leaves at most as
many characters as it was given. -/
def Consumes (p : Parser α) : Prop :=
  ∀ i r a, p i = some (r, a) → r.length ≤ i.length

/-- `p` consumes at least one character whenever it succeeds. -/
def ConsumesStrict (p : Parser α) : Prop :=
  ∀ i r a, p i = some (r, a) → r.length < i.length

/-- Any successful parse by `p` leaves a suffix of the input. -/
def LeavesSuffix (p : Parser α) : Prop :=
  ∀ i r a, p i = some (r, a) → r <:+ i

theorem LeavesSuffix.consumes {p : Parser α} (h : LeavesSuffix p) : Consumes p :=
  fun i r a hp => (h i r a hp).length_le

theorem suffix_multispace0 : LeavesSuffix Nom.multispace0 := by
  intro i r a h
  simp only [Nom.multispace0, Option.some.injEq, Prod.mk.injEq] at h
  rw [← h.1]
  exact List.dropWhile_suffix _

theorem suffix_tag (s : List Char) : LeavesSuffix (Nom.tag s) := by
  intro i r a h
  simp only [Nom.tag] at h
  split at h
  · simp only [Option.some.injEq, Prod.mk.injEq] at h
    rw [← h.1]
    exact List.drop_suffix _ _
  · exact absurd h (by simp)

theorem suffix_tag_no_case (s : List Char) : LeavesSuffix (Nom.tag_no_case s) := by
  intro i r a h
  simp only [Nom.tag_no_case] at h
  split at h
  · simp only [Option.some.injEq, Prod.mk.injEq] at h
    rw [← h.1]
    exact List.drop_suffix _ _
  · exact absurd h (by simp)

theorem suffix_take_while1 (p : Char → Bool) : LeavesSuffix (Nom.take_while1 p) := by
  intro i r a h
  simp only [Nom.take_while1] at h
  split at h
  · exact absurd h (by simp)
  · simp only [Option.some.injEq, Prod.mk.injEq] at h
    rw [← h.1]
    exact List.dropWhile_suffix _

theorem suffix_map {p : Parser α} (f : α → β) (hp : LeavesSuffix p) :
    LeavesSuffix (Nom.map p f) := by
  intro i r a h
  simp only [Nom.map] at h
  cases hpi : p i with
  | none => simp [hpi] at h
  | some ra =>
    obtain ⟨r1, a1⟩ := ra
    simp only [hpi, Option.some.injEq, Prod.mk.injEq] at h
    rw [← h.1]
    exact hp i r1 a1 (by rw [hpi])

theorem suffix_map_res {p : Parser α} (f : α → Option β) (hp : LeavesSuffix p) :
    LeavesSuffix (Nom.map_res p f) := by
  intro i r a h
  simp only [Nom.map_res] at h
  cases hpi : p i with
  | none => simp [hpi] at h
  | some ra =>
    obtain ⟨r1, a1⟩ := ra
    simp only [hpi] at h
    cases hf : f a1 with
    | none => simp [hf] at h
    | some b =>
      simp only [hf, Option.some.injEq, Prod.mk.injEq] at h
      rw [← h.1]
      exact hp i r1 a1 (by rw [hpi])

theorem suffix_opt {p : Parser α} (hp : LeavesSuffix p) :
    LeavesSuffix (Nom.opt p) := by
  intro i r a h
  simp only [Nom.opt] at h
  split at h
  · next ra heq =>
    simp only [Option.some.injEq, Prod.mk.injEq] at h
    rw [← h.1]
    exact hp i _ _ heq
  · simp only [Option.some.injEq, Prod.mk.injEq] at h
    rw [← h.1]

theorem suffix_alt_nil : LeavesSuffix (Nom.alt ([] : List (Parser α))) := by
  intro i r a h
  exact absurd h (by simp [Nom.alt])

theorem suffix_alt_cons {p : Parser α} {ps : List (Parser α)}
    (hp : LeavesSuffix p) (hps : LeavesSuffix (Nom.alt ps)) :
    LeavesSuffix (Nom.alt (p :: ps)) := by
  intro i r a h
  simp only [Nom.alt] at h
  split at h
  · next ra heq =>
    cases h
    exact hp i _ _ heq
  · exact hps i r a h

theorem suffix_preceded {p : Parser α} {q : Parser β}
    (hp : LeavesSuffix p) (hq : LeavesSuffix q) :
    LeavesSuffix (Nom.preceded p q) := by
  intro i r a h
  simp only [Nom.preceded] at h
  cases hpi : p i with
  | none => simp [hpi] at h
  | some ra =>
    obtain ⟨r1, a1⟩ := ra
    simp only [hpi] at h
    exact (hq r1 r a h).trans (hp i r1 a1 (by rw [hpi]))

theorem suffix_terminated {p : Parser α} {q : Parser β}
    (hp : LeavesSuffix p) (hq : LeavesSuffix q) :
    LeavesSuffix (Nom.terminated p q) := by
  intro i r a h
  simp only [Nom.terminated] at h
  cases hpi : p i with
  | none => simp [hpi] at h
  | some ra =>
    obtain ⟨r1, a1⟩ := ra
    simp only [hpi] at h
    cases hqi : q r1 with
    | none => simp [hqi] at h
    | some rb =>
      obtain ⟨r2, b1⟩ := rb
      simp only [hqi, Option.some.injEq, Prod.mk.injEq] at h
      rw [← h.1]
      exact (hq r1 r2 b1 (by rw [hqi])).trans (hp i r1 a1 (by rw [hpi]))

theorem suffix_delimited {p : Parser α} {q : Parser β} {s : Parser γ}
    (hp : LeavesSuffix p) (hq : LeavesSuffix q) (hs : LeavesSuffix s) :
    LeavesSuffix (Nom.delimited p q s) :=
  suffix_preceded hp (suffix_terminated hq hs)

theorem suffix_ws {p : Parser α} (hp : LeavesSuffix p) : LeavesSuffix (ws p) :=
  suffix_delimited suffix_multispace0 hp suffix_multispace0

theorem suffix_parse_keyword (kw : String) : LeavesSuffix (parse_keyword kw) :=
  suffix_ws (suffix_tag_no_case _)

theorem suffix_parse_identifier : LeavesSuffix parse_identifier :=
  suffix_ws (suffix_map _ (suffix_take_while1 _))

theorem suffix_parse_comma : LeavesSuffix parse_comma :=
  suffix_ws (suffix_tag _)

theorem suffix_parse_column_type : LeavesSuffix parse_column_type := by
  unfold parse_column_type
  refine suffix_alt_cons (suffix_map _ (suffix_parse_keyword _)) ?_
  refine suffix_alt_cons (suffix_map _ (suffix_parse_keyword _)) ?_
  refine suffix_alt_cons (suffix_map _ (suffix_parse_keyword _)) ?_
  refine suffix_alt_cons (suffix_map _ (suffix_parse_keyword _)) ?_
  refine suffix_alt_cons (suffix_map _ (suffix_parse_keyword _)) ?_
  refine suffix_alt_cons (suffix_map _ (suffix_parse_keyword _)) ?_
  refine suffix_alt_cons (suffix_map _ (suffix_parse_keyword _)) ?_
  exact suffix_alt_cons (suffix_map _ (suffix_parse_keyword _)) suffix_alt_nil

theorem suffix_identType {β : Type} (f : String → ColumnType → β) :
    LeavesSuffix (fun i =>
      match parse_identifier i with
      | none => none
      | some (i1, n) =>
        match parse_column_type i1 with
        | none => none
        | some (i2, t) => some (i2, f n t)) := by
  intro i r a h
  cases hid : parse_identifier i with
  | none => simp [hid] at h
  | some rn =>
    obtain ⟨i1, n⟩ := rn
    simp only [hid] at h
    cases hty : parse_column_type i1 with
    | none => simp [hty] at h
    | some rt =>
      obtain ⟨i2, t⟩ := rt
      simp only [hty, Option.some.injEq, Prod.mk.injEq] at h
      rw [← h.1]
      exact (suffix_parse_column_type i1 i2 t (by rw [hty])).trans
        (suffix_parse_identifier i i1 n (by rw [hid]))

theorem suffix_sepAux {sep : Parser σ} {p : Parser α}
    (hsep : LeavesSuffix sep) (hp : LeavesSuffix p) :
    ∀ fuel i acc r ls, Nom.sepAux sep p fuel i acc = some (r, ls) → r <:+ i := by
  intro fuel
  induction fuel with
  | zero => intro i acc r ls h; exact absurd h (by simp [Nom.sepAux])
  | succ n ih =>
    intro i acc r ls h
    simp only [Nom.sepAux] at h
    split at h
    · cases h
      exact List.suffix_refl _
    · next i1 _ heq =>
      split at h
      · exact absurd h (by simp)
      · split at h
        · cases h
          exact List.suffix_refl _
        · next i2 a2 heq2 =>
          exact ((ih i2 _ r ls h).trans (hp i1 i2 a2 heq2)).trans
            (hsep i i1 _ heq)

theorem suffix_separated_list0 {sep : Parser σ} {p : Parser α}
    (hsep : LeavesSuffix sep) (hp : LeavesSuffix p) :
    LeavesSuffix (Nom.separated_list0 sep p) := by
  intro i r ls h
  simp only [Nom.separated_list0] at h
  split at h
  · cases h
    exact List.suffix_refl _
  · next i1 a heq =>
    exact (suffix_sepAux hsep hp _ i1 _ r ls h).trans (hp i i1 a heq)

theorem suffix_separated_list1 {sep : Parser σ} {p : Parser α}
    (hsep : LeavesSuffix sep) (hp : LeavesSuffix p) :
    LeavesSuffix (Nom.separated_list1 sep p) := by
  intro i r ls h
  simp only [Nom.separated_list1] at h
  split at h
  · exact absurd h (by simp)
  · next i1 a heq =>
    exact (suffix_sepAux hsep hp _ i1 _ r ls h).trans (hp i i1 a heq)

theorem suffix_digit1 : LeavesSuffix Nom.digit1 :=
  suffix_take_while1 _

/-- A whitespace-wrapped non-empty literal always consumes at least one
character — the fact that keeps the separator loops of
`separated_list` from spinning. -/
theorem strict_ws_tag {s : List Char} (hs : s ≠ []) :
    ConsumesStrict (ws (Nom.tag s)) := by
  intro i r a h
  simp only [ws, Nom.delimited, Nom.preceded, Nom.terminated,
    Nom.multispace0] at h
  cases htag : Nom.tag s (i.dropWhile Nom.isMultispace) with
  | none => simp [htag] at h
  | some r1 =>
    obtain ⟨r1i, r1a⟩ := r1
    simp only [htag, Option.some.injEq, Prod.mk.injEq] at h
    obtain ⟨hr, _⟩ := h
    have hpre : s.isPrefixOf (i.dropWhile Nom.isMultispace) = true := by
      by_contra hc
      simp [Nom.tag, hc] at htag
    have hri : (i.dropWhile Nom.isMultispace).drop s.length = r1i := by
      simp only [Nom.tag, hpre, if_pos, Option.some.injEq, Prod.mk.injEq] at htag
      exact htag.1
    have hd : r.length ≤ r1i.length := by
      rw [← hr]
      exact (List.dropWhile_suffix _).length_le
    have hdrop : r1i.length = (i.dropWhile Nom.isMultispace).length - s.length := by
      rw [← hri, List.length_drop]
    have hlen : s.length ≤ (i.dropWhile Nom.isMultispace).length :=
      (List.isPrefixOf_iff_prefix.mp hpre).length_le
    have hpos : 0 < s.length := List.length_pos.mpr hs
    have hws : (i.dropWhile Nom.isMultispace).length ≤ i.length :=
      (List.dropWhile_suffix _).length_le
    omega

/-- With a strictly-consuming separator and a suffix-leaving element, the
`sepAux` loop never runs out of fuel once the fuel exceeds the input
length: it always reaches one of its `some` exits. -/
theorem sepAux_isSome {sep : Parser σ} {p : Parser α}
    (hsep : ConsumesStrict sep) (hp : LeavesSuffix p) :
    ∀ fuel i acc, i.length < fuel → (Nom.sepAux sep p fuel i acc).isSome := by
  intro fuel
  induction fuel with
  | zero => intro i acc h; exact absurd h (by omega)
  | succ n ih =>
    intro i acc hlt
    simp only [Nom.sepAux]
    cases hsepi : sep i with
    | none => simp
    | some r1 =>
      obtain ⟨i1, s1⟩ := r1
      have hstrict : i1.length < i.length := hsep i i1 s1 hsepi
      simp only []
      rw [if_neg (by omega)]
      cases hpi : p i1 with
      | none => simp
      | some r2 =>
        obtain ⟨i2, a2⟩ := r2
        have h21 : i2.length ≤ i1.length := (hp i1 i2 a2 hpi).length_le
        exact ih i2 _ (by omega)

theorem suffix_parse_add_column : LeavesSuffix parse_add_column := by
  unfold parse_add_column
  refine suffix_preceded (suffix_ws (suffix_tag_no_case _)) ?_
  refine suffix_alt_cons (suffix_identType (fun n t =>
    [AlterTableCondition.AddColumn { column_name := n, column_type := t }])) ?_
  refine suffix_alt_cons ?_ suffix_alt_nil
  exact suffix_delimited (suffix_ws (suffix_tag _))
    (suffix_separated_list1 (suffix_ws (suffix_tag _)) (suffix_identType (fun n t =>
      AlterTableCondition.AddColumn { column_name := n, column_type := t })))
    (suffix_ws (suffix_tag _))

theorem suffix_parse_drop_column : LeavesSuffix parse_drop_column := by
  unfold parse_drop_column
  refine suffix_preceded (suffix_ws (suffix_tag_no_case _)) ?_
  refine suffix_alt_cons (suffix_map _ suffix_parse_identifier) ?_
  refine suffix_alt_cons ?_ suffix_alt_nil
  exact suffix_delimited (suffix_ws (suffix_tag _))
    (suffix_separated_list1 (suffix_ws (suffix_tag _))
      (suffix_map _ suffix_parse_identifier))
    (suffix_ws (suffix_tag _))

/-- The ALTER clause-list parser is total: `separated_list0` succeeds on
every input (an unparseable head just yields the empty list, and the
comma separator always consumes, so the loop terminates in a `some`). -/
theorem parse_alter_table_condition_isSome (i : Input) :
    (parse_alter_table_condition i).isSome := by
  unfold parse_alter_table_condition Nom.map Nom.separated_list0
  cases halt : Nom.alt [parse_add_column, parse_drop_column] i with
  | none => simp [halt]
  | some r1 =>
    obtain ⟨i1, a1⟩ := r1
    simp only [halt]
    have hsome := sepAux_isSome
      (strict_ws_tag (show ([','] : List Char) ≠ [] by simp))
      (suffix_alt_cons suffix_parse_add_column
        (suffix_alt_cons suffix_parse_drop_column suffix_alt_nil))
      (i1.length + 1) i1 [a1] (by omega)
    obtain ⟨⟨r2, ls⟩, hout⟩ := Option.isSome_iff_exists.mp hsome
    simp [hout]

/-- Any successful float parse consumed a dot: the `tag(".")` inside
`parse_float`'s `recognize` chain can only succeed on a suffix of the
input whose head is `'.'`. -/
theorem dot_mem_of_parse_float (i r : Input) (v : Value)
    (h : parse_float i = some (r, v)) : '.' ∈ i := by
  simp only [parse_float, ws, Nom.delimited, Nom.preceded, Nom.terminated,
    Nom.multispace0, Nom.map_res, Nom.recognize, Option.some_bind] at h
  cases hop : Nom.opt (Nom.tag ['-']) (i.dropWhile Nom.isMultispace) with
  | none => simp [hop] at h
  | some r1 =>
    simp only [hop, Option.some_bind, Option.map_some'] at h
    cases hd1 : Nom.digit1 r1.1 with
    | none => simp [hd1] at h
    | some r2 =>
      simp only [hd1, Option.some_bind] at h
      cases hdot : Nom.tag ['.'] r2.1 with
      | none => simp [hdot] at h
      | some r3 =>
        have hpre : ['.'].isPrefixOf r2.1 = true := by
          by_contra hc
          simp only [Nom.tag, hc] at hdot
          exact absurd hdot (by simp)
        have hmem : '.' ∈ r2.1 :=
          (List.isPrefixOf_iff_prefix.mp hpre).subset (by simp)
        have h21 : r2.1 <:+ r1.1 := suffix_digit1 r1.1 r2.1 r2.2 (by rw [hd1])
        have h10 : r1.1 <:+ i.dropWhile Nom.isMultispace :=
          suffix_opt (suffix_tag _) _ r1.1 r1.2 (by rw [hop])
        exact (List.dropWhile_suffix _).subset (h10.subset (h21.subset hmem))

/-- Contrapositive form: an input without a dot never parses as a
float. -/
theorem parse_float_eq_none_of_no_dot (i : Input) (h : '.' ∉ i) :
    parse_float i = none := by
  cases hf : parse_float i with
  | none => rfl
  | some rv => exact absurd (dot_mem_of_parse_float i rv.1 rv.2 (by rw [hf])) h

/-- C1: the claim says `parse_query` routes a statement leading with
`CREATE TABLE` to the CREATE TABLE grammar (yielding CreateTable), one
leading with `ALTER TABLE` to AlterTable, and one leading with
`DROP TABLE` to DropTable.  The code does not: `get_query_type` maps the
`CREATE TABLE` and `ALTER TABLE` alternatives to `QueryType::Delete` and
tries no `DROP TABLE` alternative at all, so the repository's own test
inputs are routed to the DELETE grammar (syntax error) or rejected as
unsupported, while the CREATE TABLE grammar itself accepts them. -/
theorem c1_dispatch_misroutes_ddl :
    get_query_type
      "CREATE TABLE products (title TEXT PRIMARY KEY, price DOUBLE, quantity INT)".toList
      = .ok QueryType.Delete ∧
    parse_query
      "CREATE TABLE products (title TEXT PRIMARY KEY, price DOUBLE, quantity INT)".toList
      = .value (.error (.QuerySyntaxError
          "an error occurred while parsing delete keyword"
          "CREATE TABLE products (title TEXT PRIMARY KEY, price DOUBLE, quantity INT)")) ∧
    parse_create_table_query
      "CREATE TABLE products (title TEXT PRIMARY KEY, price DOUBLE, quantity INT)".toList
      = .ok (.DataDefinitionQuery (.CreateTable
          { table := "products",
            primary_key := { partition_key := ["title"], clustering_key := [] },
            columns := [
              { name := "title", column_type := ColumnType.Text },
              { name := "price", column_type := ColumnType.Double },
              { name := "quantity", column_type := ColumnType.Int }] })) ∧
    get_query_type "ALTER TABLE products ADD description TEXT".toList
      = .ok QueryType.Delete ∧
    parse_query "ALTER TABLE products ADD description TEXT".toList
      = .value (.error (.QuerySyntaxError
          "an error occurred while parsing delete keyword"
          "ALTER TABLE products ADD description TEXT")) ∧
    parse_query "DROP TABLE persons".toList
      = .value (.error (.UnsupportedRequest "DROP TABLE persons")) := by
  refine ⟨by decide, by decide, by decide, by decide, by decide, by decide⟩

/-- C2: the CREATE TABLE grammar decides between the single-primary-key
and composite sub-grammars by the `is_single_pk` lookahead, and produces
the claimed partition/clustering keys and declaration-ordered columns on
the three spec examples. -/
theorem c2_create_table_pk_disambiguation :
    parse_create_table_query "CREATE TABLE t (a INT PRIMARY KEY, b TEXT)".toList
      = .ok (.DataDefinitionQuery (.CreateTable
          { table := "t",
            primary_key := { partition_key := ["a"], clustering_key := [] },
            columns := [
              { name := "a", column_type := ColumnType.Int },
              { name := "b", column_type := ColumnType.Text }] })) ∧
    parse_create_table_query
      "CREATE TABLE t (a INT, b INT, c TEXT, PRIMARY KEY ((a, b), c))".toList
      = .ok (.DataDefinitionQuery (.CreateTable
          { table := "t",
            primary_key := { partition_key := ["a", "b"], clustering_key := ["c"] },
            columns := [
              { name := "a", column_type := ColumnType.Int },
              { name := "b", column_type := ColumnType.Int },
              { name := "c", column_type := ColumnType.Text }] })) ∧
    parse_create_table_query
      "CREATE TABLE t (a INT, b INT, PRIMARY KEY (a, b))".toList
      = .ok (.DataDefinitionQuery (.CreateTable
          { table := "t",
            primary_key := { partition_key := ["a"], clustering_key := ["b"] },
            columns := [
              { name := "a", column_type := ColumnType.Int },
              { name := "b", column_type := ColumnType.Int }] })) := by
  refine ⟨by decide, by decide, by decide⟩

/-- C3: `parse_value` tries float, integer, boolean, string in that
order: `10` is an Integer, `30.65` a Float, `'book'` a String,
`TRUE`/`FALSE` (any case) Bools; empty and unterminated quoted strings
fail; and an input containing no `.` at all can never satisfy the float
alternative, so it falls through to the integer parser (and the later
alternatives). -/
theorem c3_value_literal_order :
    (parse_value "10".toList = some ([], Value.Integer 10) ∧
     parse_value "30.65".toList = some ([], Value.Float (F64.decimal 3065 2)) ∧
     parse_value "'book'".toList = some ([], Value.String "book") ∧
     parse_value "TRUE".toList = some ([], Value.Bool true) ∧
     parse_value "FALSE".toList = some ([], Value.Bool false) ∧
     parse_value "fAlSe".toList = some ([], Value.Bool false) ∧
     parse_value "''".toList = none ∧
     parse_value "'book".toList = none ∧
     parse_value "10.".toList = some (['.'], Value.Integer 10)) ∧
    (∀ i : Input, '.' ∉ i →
      parse_float i = none ∧
      parse_value i = Nom.alt [
        parse_integer,
        Nom.map (ws (Nom.tag_no_case FALSE.toList)) (fun _ => Value.Bool false),
        Nom.map (ws (Nom.tag_no_case TRUE.toList)) (fun _ => Value.Bool true),
        parse_string] i) := by
  refine ⟨⟨by decide, by decide, by decide, by decide, by decide, by decide,
    by decide, by decide, by decide⟩, ?_⟩
  intro i h
  have hf := parse_float_eq_none_of_no_dot i h
  exact ⟨hf, by simp [parse_value, Nom.alt, hf]⟩

/-- Witness for C3's universal clause at the concrete numeral `10`. -/
theorem c3_value_literal_order_witness :
    '.' ∉ ("10".toList : List Char) ∧ parse_float "10".toList = none :=
  ⟨by decide, (c3_value_literal_order.2 "10".toList (by decide)).1⟩

/-- C4: the claim says every case-carrying token is matched
case-insensitively.  Statement keywords are (`select`/`Select`/`SELECT`
parse identically), but the `is_single_pk` lookahead matches
`PRIMARY KEY` with case-sensitive `tag`, so a lower-case inline
`primary key` sends the statement to the composite sub-grammar and the
parse fails; and the WHERE-clause value grammar matches only the
lower-case literals `true`/`false`, so `TRUE` as a condition value
fails. -/
theorem c4_case_sensitivity_leaks :
    parse_select_query "select * from sensors".toList
      = parse_select_query "SELECT * from sensors".toList ∧
    parse_select_query "Select * from sensors".toList
      = parse_select_query "SELECT * from sensors".toList ∧
    parse_create_table_query "CREATE TABLE t (a INT PRIMARY KEY, b TEXT)".toList
      = .ok (.DataDefinitionQuery (.CreateTable
          { table := "t",
            primary_key := { partition_key := ["a"], clustering_key := [] },
            columns := [
              { name := "a", column_type := ColumnType.Int },
              { name := "b", column_type := ColumnType.Text }] })) ∧
    parse_create_table_query "create table t (a int primary key, b text)".toList
      = .error (.QuerySyntaxError
          "cannot parse the column definition with a composite primary key"
          "(a int primary key, b text)") ∧
    parse_select_query "select * from t where flag = true".toList
      = .ok (.DataManipulationQuery (.Select
          { columns := [], table := "t",
            conditions :=
              [{ column := "flag", operator := Operator.Equals, value := Value.Bool true }] })) ∧
    parse_select_query "select * from t where flag = TRUE".toList
      = .error (.QuerySyntaxError
          "an error occurred while parsing where condition"
          "where flag = TRUE") := by
  refine ⟨by decide, by decide, by decide, by decide, by decide, by decide⟩

/-- C5 counterexample: the claim says a builder with a missing required
field fails by returning an error value rather than aborting; but
`build` on a fresh builder aborts via `Option::expect` (modelled by
`RustOutcome.panic` with the source's message). -/
theorem c5_builder_counterexample :
    ColumnBuilder.build ColumnBuilder.new
      = .panic "column_name field doesn't set" ∧
    ConditionBuilder.build ConditionBuilder.new
      = .panic "the column doesn't set" :=
  ⟨rfl, rfl⟩

/-- C5 (amended): building with a required field missing aborts via
`expect` (a panic) — it does not return an error value — and a
successfully built node is fully populated with exactly the fields that
were set. -/
theorem c5_builder_abort_on_missing_field :
    (∀ b : ColumnBuilder,
      (∃ msg, b.build = .panic msg) ↔
        (b.column_name = none ∨ b.column_type = none)) ∧
    (∀ (b : ColumnBuilder) (c : Column), b.build = .value c →
      b.column_name = some c.name ∧ b.column_type = some c.column_type) ∧
    (∀ b : ConditionBuilder,
      (∃ msg, b.build = .panic msg) ↔
        (b.column = none ∨ b.operator = none ∨ b.value = none)) ∧
    (∀ (b : ConditionBuilder) (c : Condition), b.build = .value c →
      b.column = some c.column ∧ b.operator = some c.operator ∧
        b.value = some c.value) := by
  refine ⟨?_, ?_, ?_, ?_⟩
  · rintro ⟨cn, ct⟩
    cases cn <;> cases ct <;> simp [ColumnBuilder.build]
  · rintro ⟨cn, ct⟩ c h
    cases cn with
    | none => simp [ColumnBuilder.build] at h
    | some n =>
      cases ct with
      | none => simp [ColumnBuilder.build] at h
      | some t =>
        simp only [ColumnBuilder.build, RustOutcome.value.injEq] at h
        subst h
        exact ⟨rfl, rfl⟩
  · rintro ⟨cc, co, cv⟩
    cases cc <;> cases co <;> cases cv <;> simp [ConditionBuilder.build]
  · rintro ⟨cc, co, cv⟩ c h
    cases cc with
    | none => simp [ConditionBuilder.build] at h
    | some n =>
      cases co with
      | none => simp [ConditionBuilder.build] at h
      | some o =>
        cases cv with
        | none => simp [ConditionBuilder.build] at h
        | some v =>
          simp only [ConditionBuilder.build, RustOutcome.value.injEq] at h
          subst h
          exact ⟨rfl, rfl, rfl⟩

/-- Witness for C5's amended theorem: a fully set `ColumnBuilder` builds
the fully populated column. -/
theorem c5_builder_abort_on_missing_field_witness :
    ((ColumnBuilder.new.name "a").setType ColumnType.Int).build
      = .value { name := "a", column_type := ColumnType.Int } ∧
    ((ColumnBuilder.new.name "a").setType ColumnType.Int).column_name
      = some "a" :=
  ⟨rfl, (c5_builder_abort_on_missing_field.2.1
    ((ColumnBuilder.new.name "a").setType ColumnType.Int)
    { name := "a", column_type := ColumnType.Int } rfl).1⟩

/-- C6: each ALTER clause expands into one `AlterTableCondition` per
named column; clause results are concatenated (flattened) in source
order, as the general clause-list equation and the spec's examples
show. -/
theorem c6_alter_clause_expansion :
    (∀ (i r : Input) (ls : List (List AlterTableCondition)),
      Nom.separated_list0 (ws (Nom.tag [',']))
        (Nom.alt [parse_add_column, parse_drop_column]) i = some (r, ls) →
      parse_alter_table_condition i = some (r, ls.flatten)) ∧
    parse_alter_table_query "ALTER TABLE t ADD (x INT, y TEXT)".toList
      = .value (.ok (.DataDefinitionQuery (.AlterTable
          { table := "t",
            conditions := [
              .AddColumn { column_name := "x", column_type := ColumnType.Int },
              .AddColumn { column_name := "y", column_type := ColumnType.Text }] }))) ∧
    parse_alter_table_query
      "ALTER TABLE products ADD description TEXT, DROP crated_at".toList
      = .value (.ok (.DataDefinitionQuery (.AlterTable
          { table := "products",
            conditions := [
              .AddColumn { column_name := "description", column_type := ColumnType.Text },
              .DropColumn { column_name := "crated_at" }] }))) ∧
    parse_alter_table_query "ALTER TABLE products DROP (description, price)".toList
      = .value (.ok (.DataDefinitionQuery (.AlterTable
          { table := "products",
            conditions := [
              .DropColumn { column_name := "description" },
              .DropColumn { column_name := "price" }] }))) ∧
    parse_alter_table_query "ALTER TABLE products ADD description TEXT".toList
      = .value (.ok (.DataDefinitionQuery (.AlterTable
          { table := "products",
            conditions := [
              .AddColumn { column_name := "description", column_type := ColumnType.Text }] }))) := by
  refine ⟨?_, by decide, by decide, by decide, by decide⟩
  intro i r ls h
  simp [parse_alter_table_condition, Nom.map, h]

/-- Witness for C6's clause-list equation on `ADD x INT`. -/
theorem c6_alter_clause_expansion_witness :
    Nom.separated_list0 (ws (Nom.tag [',']))
      (Nom.alt [parse_add_column, parse_drop_column]) "ADD x INT".toList
      = some ([], [[AlterTableCondition.AddColumn
          { column_name := "x", column_type := ColumnType.Int }]]) ∧
    parse_alter_table_condition "ADD x INT".toList
      = some ([], [AlterTableCondition.AddColumn
          { column_name := "x", column_type := ColumnType.Int }]) :=
  ⟨by decide,
   c6_alter_clause_expansion.1 "ADD x INT".toList []
     [[AlterTableCondition.AddColumn
        { column_name := "x", column_type := ColumnType.Int }]] (by decide)⟩

/-- C7: when none of the leading keywords the dispatcher recognizes
match (the spec's seven, `DROP TABLE` included — the code itself tries
only six), `parse_query` returns `UnsupportedRequest` carrying the raw
input unchanged, and no AST and no `QuerySyntaxError` is produced. -/
theorem c7_unsupported_request_raw_input :
    ∀ q : Input,
      parse_keyword SELECT q = none →
      parse_keyword INSERT_INTO q = none →
      parse_keyword UPDATE q = none →
      parse_keyword DELETE q = none →
      parse_keyword CREATE_TABLE q = none →
      parse_keyword ALTER_TABLE q = none →
      parse_keyword DROP_TABLE q = none →
      get_query_type q = .error (.UnsupportedRequest (String.mk q)) ∧
      parse_query q = .value (.error (.UnsupportedRequest (String.mk q))) := by
  intro q hS hI hU hD hC hA hDT
  have hg : get_query_type q = .error (.UnsupportedRequest (String.mk q)) := by
    simp [get_query_type, Nom.alt, Nom.map, hS, hI, hU, hD, hC, hA]
  exact ⟨hg, by simp [parse_query, hg]⟩

/-- Witness for C7 at the spec's example `TRUNCATE t`. -/
theorem c7_unsupported_request_raw_input_witness :
    parse_keyword SELECT "TRUNCATE t".toList = none ∧
    parse_query "TRUNCATE t".toList
      = .value (.error (.UnsupportedRequest "TRUNCATE t")) :=
  ⟨by decide,
   (c7_unsupported_request_raw_input "TRUNCATE t".toList (by decide) (by decide)
     (by decide) (by decide) (by decide) (by decide) (by decide)).2⟩

/-- C8: `Value`'s `PartialEq` compares componentwise within a variant,
is `false` across variants, and uses IEEE float equality, under which
`Float(NaN)` is not equal to itself — so the relation is not
reflexive. -/
theorem c8_value_equality_structure :
    (∀ x y : Int, Value.rustEq (.Integer x) (.Integer y) = (x == y)) ∧
    (∀ x y : F64, Value.rustEq (.Float x) (.Float y) = F64.ieeeEq x y) ∧
    (∀ x y : String, Value.rustEq (.String x) (.String y) = (x == y)) ∧
    (∀ x y : Bool, Value.rustEq (.Bool x) (.Bool y) = (x == y)) ∧
    (∀ v w : Value, v.discriminant ≠ w.discriminant →
      Value.rustEq v w = false) ∧
    Value.rustEq (.Float .nan) (.Float .nan) = false ∧
    ¬ (∀ v : Value, Value.rustEq v v = true) := by
  refine ⟨fun x y => rfl, fun x y => rfl, fun x y => rfl, fun x y => rfl,
    ?_, rfl, ?_⟩
  · intro v w hvw
    cases v <;> cases w <;> simp_all [Value.discriminant, Value.rustEq]
  · intro hall
    have h := hall (.Float .nan)
    simp [Value.rustEq, F64.ieeeEq] at h

/-- Witness for C8's cross-variant clause at `Integer 0` versus
`Bool true`. -/
theorem c8_value_equality_structure_witness :
    (Value.Integer 0).discriminant ≠ (Value.Bool true).discriminant ∧
    Value.rustEq (.Integer 0) (.Bool true) = false :=
  ⟨by decide, c8_value_equality_structure.2.2.2.2.1 _ _ (by decide)⟩

/-- C9 counterexample: the claim says any text after a syntactically
complete prefix is silently discarded; but appending the single word
`where` after the complete statement `select * from t` makes the parse
fail instead of succeeding with the prefix's AST. -/
theorem c9_trailing_input_counterexample :
    parse_select_query "select * from t".toList
      = .ok (.DataManipulationQuery (.Select
          { columns := [], table := "t", conditions := [] })) ∧
    parse_select_query "select * from t where".toList
      = .error (.QuerySyntaxError
          "an error occurred while parsing where condition" "where") := by
  refine ⟨by decide, by decide⟩

/-- C9 (amended): parsing never requires the whole input to be consumed
— each statement parser drops whatever input remains after its last
clause (DROP TABLE ignores everything after the table name; a missing
WHERE yields an empty condition list with the rest ignored) — but
trailing text that begins the statement's optional clause (e.g. a bare
`where`) is consumed as part of that clause and can fail the parse. -/
theorem c9_trailing_input_discarded :
    (∀ (q q1 rest : Input) (w : List Char) (t : String),
      ws (parse_keyword DROP_TABLE) q = some (q1, w) →
      parse_identifier q1 = some (rest, t) →
      parse_drop_table_query q
        = .ok (.DataDefinitionQuery (.DropTable { table := t }))) ∧
    (∀ q : Input, parse_keyword WHERE q = none →
      parse_conditions q = some (q, [])) ∧
    parse_select_query "select * from t garbage after".toList
      = .ok (.DataManipulationQuery (.Select
          { columns := [], table := "t", conditions := [] })) ∧
    parse_insert "insert into t (a) values (1) trailing junk".toList
      = .ok (.DataManipulationQuery (.Insert
          { columns := ["a"], values := [.Integer 1], table := "t" })) ∧
    parse_drop_table_query "DROP TABLE t and then some junk".toList
      = .ok (.DataDefinitionQuery (.DropTable { table := "t" })) := by
  refine ⟨?_, ?_, by decide, by decide, by decide⟩
  · intro q q1 rest w t h1 h2
    simp [parse_drop_table_query, h1, h2]
  · intro q h
    simp [parse_conditions, h]

/-- Witness for C9's amended theorem on a concrete DROP TABLE statement
with trailing text, and on a WHERE-less remainder. -/
theorem c9_trailing_input_discarded_witness :
    ws (parse_keyword DROP_TABLE) "DROP TABLE x junk".toList
      = some ("x junk".toList, "DROP TABLE".toList) ∧
    parse_identifier "x junk".toList = some ("junk".toList, "x") ∧
    parse_drop_table_query "DROP TABLE x junk".toList
      = .ok (.DataDefinitionQuery (.DropTable { table := "x" })) ∧
    parse_keyword WHERE "nope".toList = none ∧
    parse_conditions "nope".toList = some ("nope".toList, []) :=
  ⟨by decide, by decide,
   c9_trailing_input_discarded.1 "DROP TABLE x junk".toList "x junk".toList
     "junk".toList "DROP TABLE".toList "x" (by decide) (by decide),
   by decide,
   c9_trailing_input_discarded.2.1 "nope".toList (by decide)⟩

/-- C10: the ALTER clause-list parser succeeds on every input (an empty
clause list is legal), so `parse_alter_table_query` never reaches its
`todo!()` abort branch: `ALTER TABLE t` parses to an AlterTable node
with empty conditions, and every input yields a returned value, never a
panic. -/
theorem c10_alter_table_never_panics :
    (∀ i : Input, (parse_alter_table_condition i).isSome) ∧
    (∀ i : Input, ∃ res, parse_alter_table_query i = .value res) ∧
    parse_alter_table_query "ALTER TABLE t".toList
      = .value (.ok (.DataDefinitionQuery (.AlterTable
          { table := "t", conditions := [] }))) := by
  refine ⟨parse_alter_table_condition_isSome, ?_, by decide⟩
  intro i
  unfold parse_alter_table_query
  cases hkw : ws (parse_keyword ALTER_TABLE) i with
  | none =>
    refine ⟨.error (.QuerySyntaxError "expected 'DROP TABLE' statement"
      (String.mk i)), ?_⟩
    simp
  | some r1 =>
    obtain ⟨q1, w⟩ := r1
    cases hid : parse_identifier q1 with
    | none =>
      refine ⟨.error (.QuerySyntaxError "cannot parse table name"
        (String.mk q1)), ?_⟩
      simp [hid]
    | some r2 =>
      obtain ⟨q2, t⟩ := r2
      obtain ⟨⟨q3, conds⟩, hout⟩ :=
        Option.isSome_iff_exists.mp (parse_alter_table_condition_isSome q2)
      refine ⟨.ok (.DataDefinitionQuery (.AlterTable
        { table := t, conditions := conds })), ?_⟩
      simp [hid, hout]

end Uranus
